import Mathlib

/-
  Verification of RabPDF (src/main.py): a shallow embedding of the
  conversion orchestrator, the watermark compositor, the dependency
  manager and the settings store, with theorems checking the
  specification claims against the embedded code.

  Numeric values that are Python floats in the source (page geometry,
  measured text width, font size, opacity) are modelled as rationals;
  the constants occurring in the source (2, 1.5, 5) are exactly
  representable in binary floating point, so the rational model agrees
  with the float computation on them.  Python int() truncation toward
  zero is pyInt; Python range semantics are pyRange.
-/

namespace RabPDF

/-- Python int(q): truncation toward zero. -/
def pyInt (q : ℚ) : ℤ := if 0 ≤ q then ⌊q⌋ else -⌊-q⌋

/-- Number of elements of Python range(lo, hi, step) for a positive step;
zero for a non-positive step (range with step 0 raises before iterating,
which callers of this model handle separately; a negative step with
lo less than hi yields an empty range). -/
def pyRangeLen (lo hi step : ℤ) : ℕ :=
  if 0 < step then ((hi - lo + step - 1).toNat) / step.toNat else 0

/-- Elements of Python range(lo, hi, step). -/
def pyRange (lo hi step : ℤ) : List ℤ :=
  (List.range (pyRangeLen lo hi step)).map (fun i : ℕ => lo + step * (i : ℤ))

/-- Python str.endswith on the character sequence of the string. -/
def pyEndsWith (s t : String) : Bool := t.data.isSuffixOf s.data

/-- Python str.strip: drop leading and trailing whitespace. -/
def pyStrip (s : String) : String :=
  ⟨((s.data.dropWhile Char.isWhitespace).reverse.dropWhile Char.isWhitespace).reverse⟩

/-! ## Watermark compositor (WatermarkManager.add_watermark, src/main.py lines 276-332) -/

/-- One operation of a PDF page content stream, at the granularity the
watermark code manipulates: opaque original content tokens, graphics
state push/pop emitted by the page merge, and the overlay drawing
operations emitted by the reportlab canvas. -/
inductive ContentOp where
  | raw (tok : String)
  | pushGraphicsState
  | popGraphicsState
  | setFillGray (alpha : ℚ)
  | setFontOp (name : String) (size : ℚ)
  | translateOp (tx ty : ℚ)
  | rotateOp (degrees : ℚ)
  | drawString (x y : ℤ) (text : String)

/-- A page of a PDF document: its mediabox geometry and its content. -/
structure PdfPage where
  width : ℚ
  height : ℚ
  ops : List ContentOp

/-- The single-page watermark overlay document produced by the reportlab
canvas: its page size and its content stream. -/
structure Overlay where
  width : ℚ
  height : ℚ
  ops : List ContentOp

/-- Font name registered by WatermarkManager (src/main.py line 231). -/
def fontName : String := "Source Han Serif CN"

/-- Horizontal tile anchors: range(-int(page_width*2), int(page_width*2),
int(text_width*1.5)) from src/main.py line 311. -/
def tileXs (w tw : ℚ) : List ℤ :=
  pyRange (-(pyInt (w * 2))) (pyInt (w * 2)) (pyInt (tw * (3/2)))

/-- Vertical tile anchors: range(-int(page_height*2), int(page_height*2),
int(font_size*5)) from src/main.py line 312. -/
def tileYs (h fs : ℚ) : List ℤ :=
  pyRange (-(pyInt (h * 2))) (pyInt (h * 2)) (pyInt (fs * 5))

/-- The watermark overlay built by the canvas code (src/main.py lines
302-314): page size taken from the page given as argument, fill colour and
font set, origin translated to the page centre, rotation applied, then the
text drawn at every tile anchor, x outer loop, y inner loop. -/
def wmOverlay (p0 : PdfPage) (text : String) (tw fs opacity degrees : ℚ) : Overlay :=
  { width := p0.width
    height := p0.height
    ops :=
      [ContentOp.setFillGray opacity,
       ContentOp.setFontOp fontName fs,
       ContentOp.translateOp (p0.width / 2) (p0.height / 2),
       ContentOp.rotateOp degrees]
      ++ ((tileXs p0.width tw).map
            (fun x => (tileYs p0.height fs).map
              (fun y => ContentOp.drawString x y text))).flatten }

/-- PyPDF2 page.merge_page: the merged content stream wraps the original
content and then the overlay content in graphics state push/pop pairs. -/
def mergeOps (orig ov : List ContentOp) : List ContentOp :=
  [ContentOp.pushGraphicsState] ++ orig
    ++ [ContentOp.popGraphicsState, ContentOp.pushGraphicsState]
    ++ ov ++ [ContentOp.popGraphicsState]

/-- Merging the overlay onto a page keeps the page geometry and replaces
the content stream by the merged stream. -/
def mergeWith (p : PdfPage) (ov : Overlay) : PdfPage :=
  { p with ops := mergeOps p.ops ov.ops }

/-- Result of WatermarkManager.add_watermark: the boolean it returns, the
pages written to the output path when it succeeds, and whether the
temporary overlay file was created and whether it was deleted by the
finally block (src/main.py lines 330-332). -/
structure WMResult where
  success : Bool
  written : Option (List PdfPage)
  tempCreated : Bool
  tempDeleted : Bool

/-- WatermarkManager.add_watermark (src/main.py lines 276-332).  An empty
document fails before the temporary overlay file is created.  The overlay
geometry is read from pages[0] only (line 299-300).  The tiling loop
raises ValueError when the x stride int(text_width*1.5) is zero, or when
the y stride int(font_size*5) is zero and the x range is non-empty (an
inner range is only constructed when the outer loop body runs); the
exception is caught, False is returned, and the finally block deletes the
temporary overlay file.  Otherwise every page of the source is merged
with the single overlay, in order, and written out. -/
def add_watermark (pages : List PdfPage) (text : String)
    (tw fs opacity degrees : ℚ) : WMResult :=
  match pages with
  | [] => { success := false, written := none, tempCreated := false, tempDeleted := false }
  | p0 :: _ =>
    if pyInt (tw * (3/2)) = 0 ∨ (pyInt (fs * 5) = 0 ∧ tileXs p0.width tw ≠ []) then
      { success := false, written := none, tempCreated := true, tempDeleted := true }
    else
      { success := true
        written := some (pages.map (fun p => mergeWith p (wmOverlay p0 text tw fs opacity degrees)))
        tempCreated := true
        tempDeleted := true }

/-! ## Conversion backends (OfficeToPDFConverter, src/main.py lines 335-423) -/

/-- Observable outcome of the LibreOffice subprocess invocation:
whether subprocess.run itself raised, the returncode it reported, and
whether the expected output file exists afterwards. -/
structure LibreRun where
  raised : Bool
  returncode : ℤ
  outputExists : Bool

/-- OfficeToPDFConverter.convert_with_libreoffice (src/main.py lines
350-370): True exactly when the subprocess ran without exception,
returned code 0, and the expected output file exists (line 363). -/
def convert_with_libreoffice (r : LibreRun) : Bool :=
  !r.raised && (r.returncode == 0) && r.outputExists

/-- Failure points of one convert_with_comtypes invocation (Word branch,
src/main.py lines 384-403; the PowerPoint branch at lines 404-423 has the
same shape): whether creating the application raised, whether opening the
document raised, whether the SaveAs export raised, whether closing the
document in the finally block raises, and whether the output file exists
on disk afterwards. -/
structure ComtypesEnv where
  createRaises : Bool
  openRaises : Bool
  saveRaises : Bool
  closeRaises : Bool
  outputExists : Bool

/-- The application object is bound iff CreateObject did not raise. -/
def wordCreated (e : ComtypesEnv) : Bool := !e.createRaises

/-- The document object is bound iff the application was created and
Documents.Open did not raise. -/
def docOpened (e : ComtypesEnv) : Bool := !e.createRaises && !e.openRaises

/-- The value convert_with_comtypes returns: none when the call does not
return normally (doc.Close raising inside the finally block propagates),
otherwise the boolean of lines 395/398.  The output file existence is
never consulted. -/
def comtypesReturn (e : ComtypesEnv) : Option Bool :=
  if docOpened e && e.closeRaises then none
  else some (docOpened e && !e.saveRaises)

/-- Which release calls the finally block completes (src/main.py lines
399-403): doc.Close runs whenever doc is bound; word.Quit runs whenever
word is bound, unless doc.Close raised first, in which case the rest of
the finally block is skipped. -/
structure ReleaseTrace where
  docCloseCalled : Bool
  wordQuitCalled : Bool

/-- Semantics of the finally block at src/main.py lines 399-403. -/
def comtypesFinally (e : ComtypesEnv) : ReleaseTrace :=
  if docOpened e && e.closeRaises then
    { docCloseCalled := true, wordQuitCalled := false }
  else
    { docCloseCalled := docOpened e, wordQuitCalled := wordCreated e }

/-! ## Conversion orchestration (OfficeToPDFGUI._perform_processing, src/main.py lines 832-896) -/

/-- The conversion method selected in the UI combo box. -/
inductive ConvMethod where
  | auto
  | comtypes
  | libreoffice
deriving DecidableEq

/-- A backend invocation recorded in order of occurrence. -/
inductive BackendCall where
  | comtypes
  | libreoffice
deriving DecidableEq

/-- Environment of one job of the batch: whether the input has an office
suffix (otherwise it is a .pdf, the only other admitted kind), and the
outcome each backend and the watermark step would report for it. -/
structure JobEnv where
  isOffice : Bool
  comtypesOk : Bool
  libreOk : Bool
  watermarkOk : Bool
deriving DecidableEq

/-- use_comtypes from src/main.py lines 846-847: the method is comtypes,
or the method is auto and the platform is Windows. -/
def useComtypes : ConvMethod → Bool → Bool
  | ConvMethod.comtypes, _ => true
  | ConvMethod.auto, win => win
  | ConvMethod.libreoffice, _ => false

/-- The conversion step for one office file (src/main.py lines 843-859):
the resulting success boolean together with the ordered list of backend
invocations performed. -/
def convertJob (m : ConvMethod) (win : Bool) (j : JobEnv) : Bool × List BackendCall :=
  if useComtypes m win then
    if j.comtypesOk then (true, [BackendCall.comtypes])
    else if m = ConvMethod.auto then
      (j.libreOk, [BackendCall.comtypes, BackendCall.libreoffice])
    else (false, [BackendCall.comtypes])
  else (j.libreOk, [BackendCall.libreoffice])

/-- The per-file body of the processing loop (src/main.py lines 838-884):
an office file that fails conversion is skipped with continue; a
converted file, or a .pdf input, is then watermarked when the watermark
option is on, otherwise copied; the job counts as a success accordingly. -/
def processJob (m : ConvMethod) (win wmFlag : Bool) (j : JobEnv) : Bool :=
  if j.isOffice then
    if (convertJob m win j).1 then (if wmFlag then j.watermarkOk else true)
    else false
  else (if wmFlag then j.watermarkOk else true)

/-- The batch loop: every job is processed in order and yields an
outcome; no outcome interrupts the iteration. -/
def processBatch (m : ConvMethod) (win wmFlag : Bool) (jobs : List JobEnv) : List Bool :=
  jobs.map (processJob m win wmFlag)

/-- The aggregate success count reported at src/main.py line 885. -/
def successCount (m : ConvMethod) (win wmFlag : Bool) (jobs : List JobEnv) : ℕ :=
  (processBatch m win wmFlag jobs).count true

/-! ## Dependency manager (DependencyManager.get_libreoffice_download_url, src/main.py lines 133-151) -/

/-- Download URL for Windows 64-bit (src/main.py line 140). -/
def windowsUrl : String := "https://pan.yeslu.cn/f/wEH3/LibreOffice_25.2.5_Win_x86-64.msi"

/-- Download URL for macOS arm64 (src/main.py line 144). -/
def macArmUrl : String := "https://pan.yeslu.cn/f/EnS3/LibreOffice_25.2.5_MacOS_aarch64.dmg"

/-- Download URL for macOS x86_64 (src/main.py line 147). -/
def macIntelUrl : String := "https://pan.yeslu.cn/f/qMh4/LibreOffice_25.2.5_MacOS_x86-64.dmg"

/-- The single log line emitted for an unsupported pair (src/main.py
lines 149-150). -/
def unsupportedMsg (system machine : String) : String :=
  "当前系统 (" ++ system ++ " " ++ machine ++ ") 暂不支持自动安装 LibreOffice。"

/-- DependencyManager.get_libreoffice_download_url (src/main.py lines
133-151): the returned optional URL together with the list of log
messages emitted by the call. -/
def get_libreoffice_download_url (system machine : String) : Option String × List String :=
  if system = "Windows" then
    if pyEndsWith machine "64" then (some windowsUrl, [])
    else (none, [unsupportedMsg system machine])
  else if system = "Darwin" then
    if machine = "arm64" then (some macArmUrl, [])
    else if machine = "x86_64" then (some macIntelUrl, [])
    else (none, [unsupportedMsg system machine])
  else (none, [unsupportedMsg system machine])

/-- The pairs for which the static mapping has an entry. -/
abbrev urlMapped (system machine : String) : Prop :=
  (system = "Windows" ∧ pyEndsWith machine "64" = true)
    ∨ (system = "Darwin" ∧ (machine = "arm64" ∨ machine = "x86_64"))

/-! ## Settings persistence (SettingsManager and OfficeToPDFGUI._save_current_settings, src/main.py lines 43-77, 452-469, 809-830) -/

/-- The persisted settings object, with the keys written at src/main.py
lines 820-826. -/
structure WMSettings where
  last_watermark_text : String
  opacity : ℚ
  size : ℤ
  degrees : ℤ
  watermark_history : List String
deriving DecidableEq

/-- The history update of _save_current_settings (src/main.py lines
815-818): remove the first occurrence of the current text if present,
insert it at the front, keep at most five entries. -/
def updateHistory (current : String) (hist : List String) : List String :=
  (current :: hist.erase current).take 5

/-- OfficeToPDFGUI._save_current_settings (src/main.py lines 809-827):
nothing is saved when the stripped text is empty; otherwise the settings
object written to the store. -/
def save_current_settings (text : String) (opacity : ℚ) (size degrees : ℤ)
    (hist : List String) : Option WMSettings :=
  if pyStrip text = "" then none
  else some
    { last_watermark_text := pyStrip text
      opacity := opacity
      size := size
      degrees := degrees
      watermark_history := updateHistory (pyStrip text) hist }

/-- Default watermark text used when no settings are stored
(src/main.py line 461). -/
def defaultText : String := "深势科技版权所有，请勿外传"

/-- Loading the settings (SettingsManager.load_settings plus the
per-key defaults applied at src/main.py lines 459-464): the stored
object when present, the documented defaults otherwise. -/
def load_watermark_config (stored : Option WMSettings) : WMSettings :=
  match stored with
  | some s => s
  | none =>
    { last_watermark_text := defaultText
      opacity := 1/5
      size := 25
      degrees := 30
      watermark_history := [] }

/-- Histories the program can ever hold in memory: the initial default
is empty, and every save replaces the history by updateHistory of it. -/
inductive HistoryReachable : List String → Prop where
  | nil : HistoryReachable []
  | save (t : String) (h : List String) :
      HistoryReachable h → HistoryReachable (updateHistory t h)

/-! ## Helper lemmas -/

/-- Computation rule for pyInt on a non-negative rational. -/
lemma pyInt_eq {q : ℚ} {n : ℤ} (h0 : 0 ≤ q) (h1 : (n : ℚ) ≤ q) (h2 : q < n + 1) :
    pyInt q = n := by
  rw [pyInt, if_pos h0]
  exact Int.floor_eq_iff.2 ⟨h1, h2⟩

/-- For a non-negative rational, pyInt is the floor. -/
lemma pyInt_nonneg_eq_floor {q : ℚ} (h0 : 0 ≤ q) : pyInt q = ⌊q⌋ := if_pos h0

/-- The three-job batch of the isolation scenario: the second job is a
corrupt office file whose conversion fails, the others convert fine. -/
def threeJobs : List JobEnv :=
  [⟨true, true, true, true⟩, ⟨true, true, false, true⟩, ⟨true, true, true, true⟩]

/-! ## Claims about conversion orchestration -/

/-- Claim C2: under the auto policy on a platform with native automation,
a failed comtypes attempt is followed by exactly one libreoffice attempt
and nothing further; under the comtypes or libreoffice policy only the
named backend is ever invoked. -/
theorem conversion_fallback_policy (win : Bool) (j : JobEnv) :
    (j.comtypesOk = false →
      convertJob ConvMethod.auto true j =
        (j.libreOk, [BackendCall.comtypes, BackendCall.libreoffice])) ∧
    (convertJob ConvMethod.comtypes win j).2 = [BackendCall.comtypes] ∧
    (convertJob ConvMethod.libreoffice win j).2 = [BackendCall.libreoffice] := by
  rcases j with ⟨o, c, l, w⟩
  cases c <;> cases l <;> simp [convertJob, useComtypes]

/-- Witness for C2 at a concrete job whose comtypes attempt fails. -/
theorem conversion_fallback_policy_w :
    convertJob ConvMethod.auto true ⟨true, false, true, true⟩ =
      (true, [BackendCall.comtypes, BackendCall.libreoffice]) ∧
    (convertJob ConvMethod.comtypes false ⟨true, false, true, true⟩).2 =
      [BackendCall.comtypes] ∧
    (convertJob ConvMethod.libreoffice false ⟨true, false, true, true⟩).2 =
      [BackendCall.libreoffice] :=
  ⟨(conversion_fallback_policy false ⟨true, false, true, true⟩).1 rfl,
   (conversion_fallback_policy false ⟨true, false, true, true⟩).2.1,
   (conversion_fallback_policy false ⟨true, false, true, true⟩).2.2⟩

/-- Claim C6: batch isolation.  Every job of the list yields an outcome,
the outcome of a job depends only on that job, and in the concrete
three-job scenario where only job 2 fails conversion the outcomes are
success, failure, success with aggregate count 2 of 3. -/
theorem batch_isolation (m : ConvMethod) (win wmFlag : Bool) (jobs : List JobEnv) :
    (processBatch m win wmFlag jobs).length = jobs.length ∧
    (∀ i : ℕ, (processBatch m win wmFlag jobs)[i]?
        = jobs[i]?.map (processJob m win wmFlag)) ∧
    processBatch ConvMethod.auto false false threeJobs = [true, false, true] ∧
    successCount ConvMethod.auto false false threeJobs = 2 := by
  refine ⟨by simp [processBatch], fun i => ?_, by decide, by decide⟩
  simp [processBatch, List.getElem?_map]

/-! ## Claims about backend success criteria and resource release -/

/-- Claim C3, amended: the libreoffice backend reports success exactly
when the subprocess ran without exception with exit code 0 and the
expected output file exists; the comtypes backend reports success exactly
when the automation calls complete without exception, without consulting
the output file. -/
theorem backend_success_criteria :
    (∀ r : LibreRun, convert_with_libreoffice r = true ↔
      (r.raised = false ∧ r.returncode = 0 ∧ r.outputExists = true)) ∧
    (∀ e : ComtypesEnv, (docOpened e && e.closeRaises) = false →
      (comtypesReturn e = some true ↔ (docOpened e = true ∧ e.saveRaises = false))) := by
  constructor
  · rintro ⟨ra, rc, ex⟩
    cases ra <;> cases ex <;> simp [convert_with_libreoffice]
  · rintro ⟨c, o, s, cl, ex⟩ h
    cases c <;> cases o <;> cases s <;> cases cl <;>
      simp [comtypesReturn, docOpened] at h ⊢

/-- Counterexample for C3 as stated: a comtypes run whose automation
calls all report clean completion while the output file does not exist is
still reported as a success. -/
theorem backend_success_criteria_cex :
    comtypesReturn ⟨false, false, false, false, false⟩ = some true ∧
    (⟨false, false, false, false, false⟩ : ComtypesEnv).outputExists = false :=
  ⟨rfl, rfl⟩

/-- Witness for C3 amended at concrete runs. -/
theorem backend_success_criteria_w :
    convert_with_libreoffice ⟨false, 0, true⟩ = true ∧
    comtypesReturn ⟨false, false, false, false, true⟩ = some true :=
  ⟨(backend_success_criteria.1 ⟨false, 0, true⟩).2 ⟨rfl, rfl, rfl⟩,
   (backend_success_criteria.2 ⟨false, false, false, false, true⟩ rfl).2 ⟨rfl, rfl⟩⟩

/-- Claim C7, amended: on every exit path of the comtypes conversion,
provided closing the document does not itself raise, the finally block
closes the document exactly when one was opened and terminates the
application exactly when one was created; when doc.Close raises, the
termination of the application is skipped. -/
theorem comtypes_release_on_exit (e : ComtypesEnv) (h : e.closeRaises = false) :
    (comtypesFinally e).docCloseCalled = docOpened e ∧
    (comtypesFinally e).wordQuitCalled = wordCreated e := by
  simp [comtypesFinally, h]

/-- Counterexample for C7 as stated: when doc.Close raises in the finally
block, the created application instance is never terminated. -/
theorem comtypes_release_cex :
    docOpened ⟨false, false, false, true, true⟩ = true ∧
    wordCreated ⟨false, false, false, true, true⟩ = true ∧
    (comtypesFinally ⟨false, false, false, true, true⟩).docCloseCalled = true ∧
    (comtypesFinally ⟨false, false, false, true, true⟩).wordQuitCalled = false :=
  ⟨rfl, rfl, rfl, rfl⟩

/-- Witness for C7 amended on the exception path where opening the
document raised. -/
theorem comtypes_release_on_exit_w :
    (comtypesFinally ⟨false, true, false, false, true⟩).docCloseCalled
        = docOpened ⟨false, true, false, false, true⟩ ∧
    (comtypesFinally ⟨false, true, false, false, true⟩).wordQuitCalled
        = wordCreated ⟨false, true, false, false, true⟩ :=
  comtypes_release_on_exit ⟨false, true, false, false, true⟩ rfl

/-! ## Claims about installer URL resolution -/

/-- Claim C8: every mapped (platform, architecture) pair yields a
non-empty URL and no log message; every unmapped pair yields the
unsupported signal and exactly one log message. -/
theorem download_url_resolution (system machine : String) :
    (urlMapped system machine →
      (∃ u, (get_libreoffice_download_url system machine).1 = some u ∧ u ≠ "") ∧
      (get_libreoffice_download_url system machine).2 = []) ∧
    (¬ urlMapped system machine →
      (get_libreoffice_download_url system machine).1 = none ∧
      (get_libreoffice_download_url system machine).2.length = 1) := by
  constructor
  · intro hm
    rcases hm with ⟨hs, h64⟩ | ⟨hs, hm | hm⟩
    · subst hs
      simp [get_libreoffice_download_url, h64]
      decide
    · subst hs; subst hm
      simp [get_libreoffice_download_url]
      decide
    · subst hs; subst hm
      simp [get_libreoffice_download_url]
      decide
  · intro hn
    by_cases hw : system = "Windows"
    · subst hw
      have h64 : pyEndsWith machine "64" = false := by
        cases h : pyEndsWith machine "64"
        · rfl
        · exact absurd (Or.inl ⟨rfl, h⟩) hn
      simp [get_libreoffice_download_url, h64]
    · by_cases hd : system = "Darwin"
      · subst hd
        have ha : machine ≠ "arm64" := fun h => hn (Or.inr ⟨rfl, Or.inl h⟩)
        have hx : machine ≠ "x86_64" := fun h => hn (Or.inr ⟨rfl, Or.inr h⟩)
        simp [get_libreoffice_download_url, hw, ha, hx]
      · simp [get_libreoffice_download_url, hw, hd]

/-- Witness for C8: a mapped pair (Windows on a 64-bit machine string)
and an unmapped pair (Linux). -/
theorem download_url_resolution_w :
    ((∃ u, (get_libreoffice_download_url "Windows" "AMD64").1 = some u ∧ u ≠ "") ∧
      (get_libreoffice_download_url "Windows" "AMD64").2 = []) ∧
    ((get_libreoffice_download_url "Linux" "x86_64").1 = none ∧
      (get_libreoffice_download_url "Linux" "x86_64").2.length = 1) :=
  ⟨(download_url_resolution "Windows" "AMD64").1 (Or.inl ⟨rfl, by decide⟩),
   (download_url_resolution "Linux" "x86_64").2 (by decide)⟩

/-! ## Claims about settings persistence -/

/-- Updating a duplicate-free history keeps it duplicate-free. -/
lemma updateHistory_nodup {hist : List String} (h : hist.Nodup) (t : String) :
    (updateHistory t hist).Nodup := by
  refine List.Nodup.sublist (List.take_sublist _ _) ?_
  refine List.nodup_cons.2 ⟨?_, h.erase t⟩
  intro hm
  exact ((List.Nodup.mem_erase_iff h).1 hm).1 rfl

/-- The updated history never exceeds five entries. -/
lemma updateHistory_length (t : String) (hist : List String) :
    (updateHistory t hist).length ≤ 5 :=
  List.length_take_le _ _

/-- Every history the program can hold is duplicate-free with at most
five entries. -/
lemma historyReachable_invariant {hist : List String} (h : HistoryReachable hist) :
    hist.Nodup ∧ hist.length ≤ 5 := by
  induction h with
  | nil => exact ⟨List.nodup_nil, by simp⟩
  | save t h _ ih => exact ⟨updateHistory_nodup ih.1 t, updateHistory_length t h⟩

/-- Claim C9: saving the current watermark settings and loading them back
reproduces the identical structure, with the saved text first in the
history; the persisted history has at most five entries, keeps the
remaining entries in most-recent-first order (the tail is a subsequence
of the previous history), and contains no duplicates. -/
theorem settings_round_trip (text : String) (opacity : ℚ) (size degrees : ℤ)
    (hist : List String) (hr : HistoryReachable hist) (ht : pyStrip text ≠ "") :
    ∃ s, save_current_settings text opacity size degrees hist = some s ∧
      load_watermark_config (some s) = s ∧
      s.last_watermark_text = pyStrip text ∧
      s.opacity = opacity ∧ s.size = size ∧ s.degrees = degrees ∧
      s.watermark_history.head? = some (pyStrip text) ∧
      s.watermark_history.length ≤ 5 ∧
      s.watermark_history.Nodup ∧
      List.Sublist s.watermark_history.tail hist := by
  refine ⟨{ last_watermark_text := pyStrip text, opacity := opacity, size := size,
            degrees := degrees, watermark_history := updateHistory (pyStrip text) hist },
          ?_, rfl, rfl, rfl, rfl, rfl, ?_, ?_, ?_, ?_⟩
  · rw [save_current_settings, if_neg ht]
  · rw [updateHistory]
    rfl
  · exact updateHistory_length _ _
  · exact updateHistory_nodup (historyReachable_invariant hr).1 _
  · show List.Sublist ((hist.erase (pyStrip text)).take 4) hist
    exact (List.take_sublist _ _).trans (List.erase_sublist _ _)

/-- Witness for C9 at the concrete settings of the specification. -/
theorem settings_round_trip_w :
    HistoryReachable ([] : List String) ∧ pyStrip "CONFIDENTIAL" ≠ "" ∧
    ∃ s, save_current_settings "CONFIDENTIAL" (1/5) 25 30 [] = some s ∧
      load_watermark_config (some s) = s ∧
      s.last_watermark_text = pyStrip "CONFIDENTIAL" ∧
      s.opacity = 1/5 ∧ s.size = 25 ∧ s.degrees = 30 ∧
      s.watermark_history.head? = some (pyStrip "CONFIDENTIAL") ∧
      s.watermark_history.length ≤ 5 ∧
      s.watermark_history.Nodup ∧
      List.Sublist s.watermark_history.tail [] :=
  ⟨HistoryReachable.nil, by decide,
   settings_round_trip "CONFIDENTIAL" (1/5) 25 30 [] HistoryReachable.nil (by decide)⟩

/-! ## Claims about the watermark compositor -/

/-- Length of a merged content stream. -/
lemma mergeOps_length (o v : List ContentOp) :
    (mergeOps o v).length = o.length + v.length + 4 := by
  simp [mergeOps]
  omega

/-- Merging an overlay always changes the page content. -/
lemma mergeWith_ne (p : PdfPage) (ov : Overlay) : mergeWith p ov ≠ p := by
  intro h
  have hops : (mergeWith p ov).ops = p.ops := congrArg PdfPage.ops h
  have hl := congrArg List.length hops
  rw [show (mergeWith p ov).ops = mergeOps p.ops ov.ops from rfl, mergeOps_length] at hl
  omega

/-- A two-page demo document whose pages have distinct geometries. -/
def pageA : PdfPage := ⟨300, 400, [ContentOp.raw "origA"]⟩

/-- Second demo page, smaller than the first. -/
def pageB : PdfPage := ⟨100, 200, [ContentOp.raw "origB"]⟩

/-- The demo document. -/
def twoPages : List PdfPage := [pageA, pageB]

/-- Concrete stride computation for the demo parameters. -/
lemma demo_sx : pyInt ((300 : ℚ) * (3/2)) = 450 :=
  pyInt_eq (by norm_num) (by norm_num) (by norm_num)

/-- Concrete stride computation for the demo parameters. -/
lemma demo_sy : pyInt ((60 : ℚ) * 5) = 300 :=
  pyInt_eq (by norm_num) (by norm_num) (by norm_num)

/-- The demo watermarking call succeeds. -/
lemma demo_success : (add_watermark twoPages "W" 300 60 (1/5) 30).success = true := by
  rw [show twoPages = pageA :: [pageB] from rfl, add_watermark, if_neg]
  rintro (hc | ⟨hc, -⟩)
  · rw [demo_sx] at hc
    norm_num at hc
  · rw [demo_sy] at hc
    norm_num at hc

/-- Claim C1, amended: a successful watermark run builds one overlay,
sized to the geometry of the first page of the source document, and
merges that same overlay onto every page; it does not size the overlay to
the geometry of each individual page. -/
theorem watermark_overlay_geometry (pages : List PdfPage) (text : String)
    (tw fs opacity degrees : ℚ)
    (h : (add_watermark pages text tw fs opacity degrees).success = true) :
    ∃ p0 rest, pages = p0 :: rest ∧
      (add_watermark pages text tw fs opacity degrees).written =
        some (pages.map (fun p => mergeWith p (wmOverlay p0 text tw fs opacity degrees))) ∧
      (wmOverlay p0 text tw fs opacity degrees).width = p0.width ∧
      (wmOverlay p0 text tw fs opacity degrees).height = p0.height := by
  cases pages with
  | nil => simp [add_watermark] at h
  | cons p0 rest =>
    by_cases hc : pyInt (tw * (3/2)) = 0 ∨ (pyInt (fs * 5) = 0 ∧ tileXs p0.width tw ≠ [])
    · simp [add_watermark, hc] at h
    · exact ⟨p0, rest, rfl, by simp [add_watermark, hc], rfl, rfl⟩

/-- Counterexample for C1 as stated: on a two-page document whose second
page measures 100 by 200, the overlay merged onto the second page is the
one sized from the first page, 300 by 400. -/
theorem watermark_overlay_geometry_cex :
    (add_watermark twoPages "W" 300 60 (1/5) 30).written =
      some (twoPages.map (fun p => mergeWith p (wmOverlay pageA "W" 300 60 (1/5) 30))) ∧
    (wmOverlay pageA "W" 300 60 (1/5) 30).width = 300 ∧
    (wmOverlay pageA "W" 300 60 (1/5) 30).height = 400 ∧
    pageB.width = 100 ∧ pageB.height = 200 ∧
    ((300 : ℚ) ≠ 100) ∧ ((400 : ℚ) ≠ 200) := by
  refine ⟨?_, rfl, rfl, rfl, rfl, by norm_num, by norm_num⟩
  rw [show twoPages = pageA :: [pageB] from rfl, add_watermark, if_neg]
  rintro (hc | ⟨hc, -⟩)
  · rw [demo_sx] at hc
    norm_num at hc
  · rw [demo_sy] at hc
    norm_num at hc

/-- Witness for C1 amended at the demo document. -/
theorem watermark_overlay_geometry_w :
    (add_watermark twoPages "W" 300 60 (1/5) 30).success = true ∧
    ∃ p0 rest, twoPages = p0 :: rest ∧
      (add_watermark twoPages "W" 300 60 (1/5) 30).written =
        some (twoPages.map (fun p => mergeWith p (wmOverlay p0 "W" 300 60 (1/5) 30))) ∧
      (wmOverlay p0 "W" 300 60 (1/5) 30).width = p0.width ∧
      (wmOverlay p0 "W" 300 60 (1/5) 30).height = p0.height :=
  ⟨demo_success, watermark_overlay_geometry twoPages "W" 300 60 (1/5) 30 demo_success⟩

/-- Claim C5: a successful watermark run writes exactly one output page
per source page, in source order, each the merge of the corresponding
source page with the overlay; the original content of every page is
preserved inside the merged stream, and the output differs from the
input. -/
theorem watermark_output_structure (pages : List PdfPage) (text : String)
    (tw fs opacity degrees : ℚ)
    (h : (add_watermark pages text tw fs opacity degrees).success = true) :
    ∃ p0 rest out, pages = p0 :: rest ∧
      (add_watermark pages text tw fs opacity degrees).written = some out ∧
      out = pages.map (fun p => mergeWith p (wmOverlay p0 text tw fs opacity degrees)) ∧
      out.length = pages.length ∧
      (∀ i : ℕ, out[i]?
          = pages[i]?.map (fun p => mergeWith p (wmOverlay p0 text tw fs opacity degrees))) ∧
      (∀ p : PdfPage, ∃ pre post,
          (mergeWith p (wmOverlay p0 text tw fs opacity degrees)).ops
            = pre ++ p.ops ++ post) ∧
      out ≠ pages := by
  cases pages with
  | nil => simp [add_watermark] at h
  | cons p0 rest =>
    by_cases hc : pyInt (tw * (3/2)) = 0 ∨ (pyInt (fs * 5) = 0 ∧ tileXs p0.width tw ≠ [])
    · simp [add_watermark, hc] at h
    · refine ⟨p0, rest,
        (p0 :: rest).map (fun p => mergeWith p (wmOverlay p0 text tw fs opacity degrees)),
        rfl, by simp [add_watermark, hc], rfl, by simp, ?_, ?_, ?_⟩
      · intro i
        cases i with
        | zero => simp
        | succ n => simp [List.getElem?_map]
      · intro p
        exact ⟨[ContentOp.pushGraphicsState],
          [ContentOp.popGraphicsState, ContentOp.pushGraphicsState]
            ++ (wmOverlay p0 text tw fs opacity degrees).ops ++ [ContentOp.popGraphicsState],
          by simp [mergeWith, mergeOps]⟩
      · intro he
        have h0 : mergeWith p0 (wmOverlay p0 text tw fs opacity degrees) = p0 := by
          have := congrArg List.head? he
          simpa using this
        exact mergeWith_ne _ _ h0

/-- Witness for C5 at the demo document. -/
theorem watermark_output_structure_w :
    (add_watermark twoPages "W" 300 60 (1/5) 30).success = true ∧
    ∃ p0 rest out, twoPages = p0 :: rest ∧
      (add_watermark twoPages "W" 300 60 (1/5) 30).written = some out ∧
      out = twoPages.map (fun p => mergeWith p (wmOverlay p0 "W" 300 60 (1/5) 30)) ∧
      out.length = twoPages.length ∧
      (∀ i : ℕ, out[i]?
          = twoPages[i]?.map (fun p => mergeWith p (wmOverlay p0 "W" 300 60 (1/5) 30))) ∧
      (∀ p : PdfPage, ∃ pre post,
          (mergeWith p (wmOverlay p0 "W" 300 60 (1/5) 30)).ops = pre ++ p.ops ++ post) ∧
      out ≠ twoPages :=
  ⟨demo_success, watermark_output_structure twoPages "W" 300 60 (1/5) 30 demo_success⟩

/-- Claim C10, amended: on a non-empty document, when the truncated
horizontal stride int(text_width*1.5) is zero, or the truncated vertical
stride int(font_size*5) is zero while the horizontal tile range is
non-empty, the tiling loop raises, the exception is caught, the operation
returns False, and the temporary overlay file is still deleted.  When
only the vertical stride is zero and the horizontal range is empty, the
zero stride is never reached and the operation does not fail. -/
theorem zero_stride_fails (p0 : PdfPage) (rest : List PdfPage) (text : String)
    (tw fs opacity degrees : ℚ)
    (h : pyInt (tw * (3/2)) = 0 ∨ (pyInt (fs * 5) = 0 ∧ tileXs p0.width tw ≠ [])) :
    add_watermark (p0 :: rest) text tw fs opacity degrees =
      { success := false, written := none, tempCreated := true, tempDeleted := true } := by
  rw [add_watermark, if_pos h]

/-- Witness for C10 amended: a zero measured text width makes the
horizontal stride zero and the call fails with the temporary file
deleted. -/
theorem zero_stride_fails_w :
    pyInt ((0 : ℚ) * (3/2)) = 0 ∧
    add_watermark [⟨600, 800, []⟩] "W" 0 25 (1/5) 30 =
      { success := false, written := none, tempCreated := true, tempDeleted := true } :=
  ⟨by simp [pyInt],
   zero_stride_fails ⟨600, 800, []⟩ [] "W" 0 25 (1/5) 30 (Or.inl (by simp [pyInt]))⟩

/-- Counterexample for C10 as stated: with positive font size 1/10 the
vertical stride int(font_size*5) is zero, yet on a page narrower than
half a point the horizontal range is empty, the zero stride is never
evaluated, and the operation succeeds instead of returning failure. -/
theorem zero_stride_cex :
    (0 : ℚ) < 1/10 ∧
    pyInt ((1/10 : ℚ) * 5) = 0 ∧
    (add_watermark [⟨1/5, 1/5, []⟩] "W" 1 (1/10) (1/5) 30).success = true := by
  have h32 : pyInt ((1 : ℚ) * (3/2)) = 1 :=
    pyInt_eq (by norm_num) (by norm_num) (by norm_num)
  have h12 : pyInt ((1/10 : ℚ) * 5) = 0 :=
    pyInt_eq (by norm_num) (by norm_num) (by norm_num)
  have h25 : pyInt ((1/5 : ℚ) * 2) = 0 :=
    pyInt_eq (by norm_num) (by norm_num) (by norm_num)
  have hx : tileXs (1/5 : ℚ) 1 = [] := by
    rw [tileXs, h25, h32]
    decide
  refine ⟨by norm_num, h12, ?_⟩
  rw [add_watermark, if_neg]
  rintro (hc | ⟨-, hc⟩)
  · rw [h32] at hc
    norm_num at hc
  · exact hc hx

/-! ## Claims about tiling coverage -/

/-- Unfolding of pyRangeLen for a positive step. -/
lemma pyRangeLen_pos_step (lo hi step : ℤ) (hs : 0 < step) :
    pyRangeLen lo hi step = ((hi - lo + step - 1).toNat) / step.toNat :=
  if_pos hs

/-- The number of range elements times the step covers the symmetric
interval: ceiling division multiplied back by the step is at least the
interval length. -/
lemma pyRangeLen_mul_ge (a s : ℤ) (ha : 0 ≤ a) (hs : 1 ≤ s) :
    2 * a ≤ (pyRangeLen (-a) a s : ℤ) * s := by
  have hs0 : (0 : ℤ) < s := by omega
  rw [pyRangeLen_pos_step _ _ _ hs0]
  have hnn : (0 : ℤ) ≤ a - -a + s - 1 := by omega
  have hmpos : 0 < s.toNat := by omega
  have hdm := Nat.div_add_mod (a - -a + s - 1).toNat s.toNat
  have hmod := Nat.mod_lt (a - -a + s - 1).toNat hmpos
  have h1 : (s.toNat : ℤ) * (((a - -a + s - 1).toNat / s.toNat : ℕ) : ℤ)
      + (((a - -a + s - 1).toNat % s.toNat : ℕ) : ℤ)
      = ((a - -a + s - 1).toNat : ℤ) := by
    exact_mod_cast hdm
  have h2 : (((a - -a + s - 1).toNat % s.toNat : ℕ) : ℤ) < (s.toNat : ℤ) := by
    exact_mod_cast hmod
  have h3 : ((a - -a + s - 1).toNat : ℤ) = a - -a + s - 1 := Int.toNat_of_nonneg hnn
  have h4 : (s.toNat : ℤ) = s := Int.toNat_of_nonneg hs0.le
  rw [mul_comm]
  rw [h3, h4] at h1
  rw [h4] at h2
  linarith

/-- Every element of a range with positive step lies between the bounds. -/
lemma pyRange_mem_bounds (lo hi s : ℤ) (hs : 0 < s) {x : ℤ}
    (hx : x ∈ pyRange lo hi s) : lo ≤ x ∧ x < hi := by
  rw [pyRange] at hx
  rcases List.mem_map.1 hx with ⟨i, hi_mem, rfl⟩
  have hi_lt : i < pyRangeLen lo hi s := List.mem_range.1 hi_mem
  rw [pyRangeLen_pos_step _ _ _ hs] at hi_lt
  have hnn : (0 : ℤ) ≤ s * (i : ℤ) :=
    mul_nonneg hs.le (Int.natCast_nonneg i)
  refine ⟨by omega, ?_⟩
  by_cases hd : hi - lo ≤ 0
  · exfalso
    have h1 : (hi - lo + s - 1).toNat < s.toNat := by omega
    have := Nat.div_eq_of_lt h1
    omega
  · push_neg at hd
    have hq : (hi - lo + s - 1).toNat / s.toNat * s.toNat ≤ (hi - lo + s - 1).toNat :=
      Nat.div_mul_le_self _ _
    have hq' : (((hi - lo + s - 1).toNat / s.toNat : ℕ) : ℤ) * (s.toNat : ℤ)
        ≤ ((hi - lo + s - 1).toNat : ℤ) := by exact_mod_cast hq
    have h3 : ((hi - lo + s - 1).toNat : ℤ) = hi - lo + s - 1 :=
      Int.toNat_of_nonneg (by omega)
    have h4 : (s.toNat : ℤ) = s := Int.toNat_of_nonneg hs.le
    rw [h3, h4] at hq'
    have hiq : (i : ℤ) ≤ (((hi - lo + s - 1).toNat / s.toNat : ℕ) : ℤ) - 1 := by
      omega
    have hsi : s * (i : ℤ) ≤ s * ((((hi - lo + s - 1).toNat / s.toNat : ℕ) : ℤ) - 1) :=
      mul_le_mul_of_nonneg_left hiq hs.le
    have hring : s * ((((hi - lo + s - 1).toNat / s.toNat : ℕ) : ℤ) - 1)
        = (((hi - lo + s - 1).toNat / s.toNat : ℕ) : ℤ) * s - s := by ring
    linarith

/-- Core counting bound: the tile anchor count along one axis, times its
stride, exceeds the claimed coverage minus the truncation loss. -/
lemma tile_count_bound (W T : ℚ) (hW : 0 < W) (hT : 0 < T) (hs : pyInt T ≠ 0) :
    ((pyRange (-(pyInt (W * 2))) (pyInt (W * 2)) (pyInt T)).length : ℚ)
      > (4 * W - 2) / T := by
  have hW2 : (0 : ℚ) ≤ W * 2 := by linarith
  have ha0 : (0 : ℤ) ≤ pyInt (W * 2) := by
    rw [pyInt_nonneg_eq_floor hW2]
    exact Int.floor_nonneg.2 hW2
  have hs0 : (0 : ℤ) ≤ pyInt T := by
    rw [pyInt_nonneg_eq_floor hT.le]
    exact Int.floor_nonneg.2 hT.le
  have hs1 : (1 : ℤ) ≤ pyInt T := by omega
  have hsq : ((pyInt T : ℤ) : ℚ) ≤ T := by
    rw [pyInt_nonneg_eq_floor hT.le]
    exact_mod_cast Int.floor_le T
  have hsq0 : (0 : ℚ) < ((pyInt T : ℤ) : ℚ) := by exact_mod_cast hs1
  have haq : 2 * W - 1 < ((pyInt (W * 2) : ℤ) : ℚ) := by
    rw [pyInt_nonneg_eq_floor hW2]
    have := Int.sub_one_lt_floor (W * 2)
    linarith
  have hlen := pyRangeLen_mul_ge (pyInt (W * 2)) (pyInt T) ha0 hs1
  have hlen_eq : (pyRange (-(pyInt (W * 2))) (pyInt (W * 2)) (pyInt T)).length
      = pyRangeLen (-(pyInt (W * 2))) (pyInt (W * 2)) (pyInt T) := by
    rw [pyRange, List.length_map, List.length_range]
  rw [hlen_eq]
  have h1 : (2 * ((pyInt (W * 2) : ℤ) : ℚ)) / ((pyInt T : ℤ) : ℚ)
      ≤ ((pyRangeLen (-(pyInt (W * 2))) (pyInt (W * 2)) (pyInt T) : ℕ) : ℚ) := by
    rw [div_le_iff₀ hsq0]
    exact_mod_cast hlen
  have h2 : (2 * ((pyInt (W * 2) : ℤ) : ℚ)) / T
      ≤ (2 * ((pyInt (W * 2) : ℤ) : ℚ)) / ((pyInt T : ℤ) : ℚ) := by
    rw [div_le_div_iff₀ hT hsq0]
    have hnum : (0 : ℚ) ≤ 2 * ((pyInt (W * 2) : ℤ) : ℚ) := by
      have : (0 : ℚ) ≤ ((pyInt (W * 2) : ℤ) : ℚ) := by exact_mod_cast ha0
      linarith
    exact mul_le_mul_of_nonneg_left hsq hnum
  have h3 : (4 * W - 2) / T < (2 * ((pyInt (W * 2) : ℤ) : ℚ)) / T :=
    (div_lt_div_iff_of_pos_right hT).2 (by linarith)
  linarith

/-- Claim C4, amended: every tile anchor lies between the negative and
positive bounds of the doubled page region, and the anchor counts satisfy
the coverage bounds weakened by the loss of the integer truncations: the
column count strictly exceeds (4W - 2)/(1.5 Tw) and the row count
strictly exceeds (4H - 2)/(5 F); the originally claimed bounds
(4W)/(1.5 Tw) and (4H)/(5 F) do not always hold. -/
theorem tiling_coverage (W H Tw F : ℚ) (hW : 0 < W) (hH : 0 < H)
    (hTw : 0 < Tw) (hF : 0 < F)
    (hsx : pyInt (Tw * (3/2)) ≠ 0) (hsy : pyInt (F * 5) ≠ 0) :
    (∀ x ∈ tileXs W Tw, -(pyInt (W * 2)) ≤ x ∧ x < pyInt (W * 2)) ∧
    (∀ y ∈ tileYs H F, -(pyInt (H * 2)) ≤ y ∧ y < pyInt (H * 2)) ∧
    ((tileXs W Tw).length : ℚ) > (4 * W - 2) / (Tw * (3/2)) ∧
    ((tileYs H F).length : ℚ) > (4 * H - 2) / (F * 5) := by
  have hTw' : (0 : ℚ) < Tw * (3/2) := mul_pos hTw (by norm_num)
  have hF' : (0 : ℚ) < F * 5 := mul_pos hF (by norm_num)
  have hsx_pos : (0 : ℤ) < pyInt (Tw * (3/2)) := by
    have h0 : (0 : ℤ) ≤ pyInt (Tw * (3/2)) := by
      rw [pyInt_nonneg_eq_floor hTw'.le]
      exact Int.floor_nonneg.2 hTw'.le
    omega
  have hsy_pos : (0 : ℤ) < pyInt (F * 5) := by
    have h0 : (0 : ℤ) ≤ pyInt (F * 5) := by
      rw [pyInt_nonneg_eq_floor hF'.le]
      exact Int.floor_nonneg.2 hF'.le
    omega
  exact ⟨fun x hx => pyRange_mem_bounds _ _ _ hsx_pos hx,
    fun y hy => pyRange_mem_bounds _ _ _ hsy_pos hy,
    tile_count_bound W (Tw * (3/2)) hW hTw' hsx,
    tile_count_bound H (F * 5) hH hF' hsy⟩

/-- Concrete stride for the coverage witness. -/
lemma pyInt_150 : pyInt ((100 : ℚ) * (3/2)) = 150 :=
  pyInt_eq (by norm_num) (by norm_num) (by norm_num)

/-- Concrete stride for the coverage witness. -/
lemma pyInt_125 : pyInt ((25 : ℚ) * 5) = 125 :=
  pyInt_eq (by norm_num) (by norm_num) (by norm_num)

/-- Witness for C4 amended at a 600 by 800 page, text width 100, font
size 25. -/
theorem tiling_coverage_w :
    (0 : ℚ) < 600 ∧ (0 : ℚ) < 800 ∧ (0 : ℚ) < 100 ∧ (0 : ℚ) < 25 ∧
    pyInt ((100 : ℚ) * (3/2)) ≠ 0 ∧ pyInt ((25 : ℚ) * 5) ≠ 0 ∧
    ((∀ x ∈ tileXs 600 100, -(pyInt ((600 : ℚ) * 2)) ≤ x ∧ x < pyInt ((600 : ℚ) * 2)) ∧
     (∀ y ∈ tileYs 800 25, -(pyInt ((800 : ℚ) * 2)) ≤ y ∧ y < pyInt ((800 : ℚ) * 2)) ∧
     ((tileXs (600 : ℚ) 100).length : ℚ) > (4 * 600 - 2) / (100 * (3/2)) ∧
     ((tileYs (800 : ℚ) 25).length : ℚ) > (4 * 800 - 2) / (25 * 5)) :=
  ⟨by norm_num, by norm_num, by norm_num, by norm_num,
   by rw [pyInt_150]; decide, by rw [pyInt_125]; decide,
   tiling_coverage 600 800 100 25 (by norm_num) (by norm_num) (by norm_num) (by norm_num)
     (by rw [pyInt_150]; decide) (by rw [pyInt_125]; decide)⟩

/-- Counterexample for C4 as stated: with page width 7/4 and measured
text width 2 the strides are the non-zero integers 3 and 5, the tiling
produces 2 columns, yet the claimed lower bound (4W)/(1.5 Tw) equals 7/3,
which exceeds 2. -/
theorem tiling_coverage_cex :
    (0 : ℚ) < 7/4 ∧ (0 : ℚ) < 2 ∧
    pyInt ((2 : ℚ) * (3/2)) = 3 ∧ pyInt ((1 : ℚ) * 5) = 5 ∧
    (tileXs (7/4 : ℚ) 2).length = 2 ∧
    ¬(((tileXs (7/4 : ℚ) 2).length : ℚ) ≥ 4 * (7/4) / ((3/2) * 2)) := by
  have h72 : pyInt ((7/4 : ℚ) * 2) = 3 :=
    pyInt_eq (by norm_num) (by norm_num) (by norm_num)
  have h3 : pyInt ((2 : ℚ) * (3/2)) = 3 :=
    pyInt_eq (by norm_num) (by norm_num) (by norm_num)
  have h5 : pyInt ((1 : ℚ) * 5) = 5 :=
    pyInt_eq (by norm_num) (by norm_num) (by norm_num)
  have hlen : (tileXs (7/4 : ℚ) 2).length = 2 := by
    rw [tileXs, h72, h3]
    decide
  refine ⟨by norm_num, by norm_num, h3, h5, hlen, ?_⟩
  rw [hlen]
  norm_num

end RabPDF
